import Mathlib

/-!
Formal model of the interactive voice message application (`src/app.py`).

The application drives an interactive voice-response phone call: it places an
outbound call, speaks a message, offers the listener a numeric menu, and reacts
to keypresses or a recorded voice reply.  The model below is a shallow
embedding of the Python source:

* TwiML documents (`VoiceResponse`) become lists of `Node`s; `Say` elements
  become `SayNode`s with a voice name, an optional loop count and children.
* `string.Template.substitute` (used by `render_template`) is modelled by the
  character-level scanner `substChars`: `$$` is an escape, `$name` and
  `$\x7bname\x7d` substitute a variable (a missing variable is an error,
  matching `KeyError`), and any other `$` is an invalid placeholder
  (matching `ValueError`).
* Exceptions become `Except` values; the webhook handlers take the parsed
  form body as an association list.
* First-class callback functions stored in menu entries become the tagged
  type `CallbackAction` interpreted by `run_action`; the zero-argument
  message thunks of `DynamicMessages` become the tag `MessageRef`
  interpreted by `call_message`.
-/

/-- Error raised by template substitution: a referenced variable that is not
in the configured mapping (Python `KeyError`), or a dangling/invalid `$`
placeholder (Python `ValueError`). -/
inductive TemplateError where
  | missingVariable (name : String)
  | invalidPlaceholder
deriving DecidableEq

/-- Errors a webhook handler can produce: a missing form key (Flask raises
`BadRequestKeyError`, an HTTP 400 client error) or a template error while
rendering a prompt (an HTTP 500 internal error). -/
inductive HandlerError where
  | missingFormKey (key : String)
  | template (e : TemplateError)
deriving DecidableEq

/-- Configuration (`IVMConfig` in `src/app.py`); only the fields the call
logic reads.  `vars` is the `variables` mapping used for template substitution
(renamed because `variables` is a reserved token in Lean 4),
`base_url` is the `BASE_URL` Flask config consulted by `url_for` for
externally reachable callback addresses. -/
structure IVMConfig where
  machine_voice : String
  human_voice : String
  vars : List (String × String)
  base_url : String
  to_number : String
  from_number : String

/-- First character of a Python `string.Template` identifier: `[_a-zA-Z]`. -/
def isIdentStart (c : Char) : Bool := c = '_' || c.isAlpha

/-- Subsequent character of a Python `string.Template` identifier:
`[_a-zA-Z0-9]`. -/
def isIdentChar (c : Char) : Bool := isIdentStart c || c.isDigit

mutual

/-- Character-level model of `string.Template.substitute`: copy characters
until a `$` is found, then delegate to `substDollar`. -/
def substChars (vars : List (String × String)) : List Char → Except TemplateError (List Char)
  | [] => .ok []
  | c :: rest =>
      if c = '$' then substDollar vars rest
      else Except.map (fun t => c :: t) (substChars vars rest)

/-- Handle the text following a `$`: `$$` is an escaped dollar, `$\x7b`
starts a braced reference, an identifier-start character begins a named
reference, anything else is an invalid placeholder. -/
def substDollar (vars : List (String × String)) : List Char → Except TemplateError (List Char)
  | [] => .error TemplateError.invalidPlaceholder
  | c :: rest =>
      if c = '$' then Except.map (fun t => '$' :: t) (substChars vars rest)
      else if c = '\x7b' then
        match rest with
        | [] => .error TemplateError.invalidPlaceholder
        | c2 :: rest2 =>
            if isIdentStart c2 then substBraced vars [c2] rest2
            else .error TemplateError.invalidPlaceholder
      else if isIdentStart c then substNamed vars [c] rest
      else .error TemplateError.invalidPlaceholder

/-- Accumulate the identifier of a `$name` reference, then substitute its
value (substituted text is not re-scanned, as in Python). -/
def substNamed (vars : List (String × String)) (acc : List Char) : List Char → Except TemplateError (List Char)
  | [] =>
      match List.lookup (String.mk acc) vars with
      | some v => .ok v.toList
      | none => .error (TemplateError.missingVariable (String.mk acc))
  | c :: rest =>
      if isIdentChar c then substNamed vars (acc ++ [c]) rest
      else
        match List.lookup (String.mk acc) vars with
        | some v =>
            if c = '$' then Except.map (fun t => v.toList ++ t) (substDollar vars rest)
            else Except.map (fun t => v.toList ++ c :: t) (substChars vars rest)
        | none => .error (TemplateError.missingVariable (String.mk acc))

/-- Accumulate the identifier of a braced reference until the closing brace,
then substitute its value. -/
def substBraced (vars : List (String × String)) (acc : List Char) : List Char → Except TemplateError (List Char)
  | [] => .error TemplateError.invalidPlaceholder
  | c :: rest =>
      if c = '\x7d' then
        match List.lookup (String.mk acc) vars with
        | some v => Except.map (fun t => v.toList ++ t) (substChars vars rest)
        | none => .error (TemplateError.missingVariable (String.mk acc))
      else if isIdentChar c then substBraced vars (acc ++ [c]) rest
      else .error TemplateError.invalidPlaceholder

end

/-- Model of `render_template` in `src/app.py`: render the given string as a
`string.Template` against the configured variable mapping. -/
def render_template (vars : List (String × String)) (template : String) : Except TemplateError String :=
  Except.map String.mk (substChars vars template.toList)

/-- Child of a `Say` element: plain text, or a `say-as` SSML tag (produced by
`ssml("say_as", text, interpret_as=...)` in the source). -/
inductive SayChild where
  | text (s : String)
  | sayAs (content : String) (interpretAs : String)
deriving DecidableEq

/-- A rendered `Say` element: the voice it is spoken in, an optional `loop`
attribute, and its children in order. -/
structure SayNode where
  voice : String
  loop : Option Nat
  children : List SayChild
deriving DecidableEq

/-- A TwiML verb as appended to a `VoiceResponse`: `Say`, `Pause`, `Gather`
(with its nested body), `Record`, or `Hangup`. -/
inductive Node where
  | say (s : SayNode)
  | pause (length : Nat)
  | gather (numDigits : Nat) (action : String) (method : String) (timeout : Nat) (body : List Node)
  | record (action : String) (playBeep : Bool) (method : String) (maxLength : Nat) (transcribeCallback : String)
  | hangup

/-- A `VoiceResponse` document: the ordered list of appended verbs. -/
abbrev VoiceResponse : Type := List Node

/-- What the bot does after handling user input (`CallbackSideEffect` in
`src/app.py`). -/
inductive CallbackSideEffect where
  | NOOP
  | RETURN_TO_MENU
  | HANGUP
deriving DecidableEq

/-- A piece passed to the `say` helper: a literal string (subject to template
substitution) or a pre-built tag attached as-is (the `LazyTwiMLBuilder` /
`TwiML` cases of `TwiMLElement` in the source). -/
inductive TwiMLElem where
  | str (s : String)
  | tag (c : SayChild)
deriving DecidableEq

/-- The reducer inside `concat_consecutive_strings`: merge a string element
into a trailing string accumulator entry, otherwise append it. -/
def concat_reducer (acc : List TwiMLElem) (elem : TwiMLElem) : List TwiMLElem :=
  match acc.getLast?, elem with
  | some (TwiMLElem.str s), TwiMLElem.str t => List.dropLast acc ++ [TwiMLElem.str (s ++ t)]
  | _, _ => acc ++ [elem]

/-- Model of `concat_consecutive_strings` in `src/app.py`: concatenate
consecutive string elements so that appending them to a `Say` element does
not drop all but the last. -/
def concat_consecutive_strings (elems : List TwiMLElem) : List TwiMLElem :=
  elems.foldl concat_reducer []

/-- The loop body of `say`: render each string element as a template and turn
it into a text child, attach tags as-is.  A template error aborts, as the
Python exception does. -/
def renderElems (vars : List (String × String)) : List TwiMLElem → Except TemplateError (List SayChild)
  | [] => .ok []
  | TwiMLElem.str s :: rest => do
      let r ← render_template vars s
      let t ← renderElems vars rest
      .ok (SayChild.text r :: t)
  | TwiMLElem.tag c :: rest => do
      let t ← renderElems vars rest
      .ok (c :: t)

/-- Model of `say` in `src/app.py`: construct a `Say` element from the given
children (after merging consecutive strings), stamped with a voice and an
optional loop count. -/
def say (vars : List (String × String)) (voice : String) (loop : Option Nat)
    (children : List TwiMLElem) : Except TemplateError SayNode := do
  let cs ← renderElems vars (concat_consecutive_strings children)
  .ok ⟨voice, loop, cs⟩

/-- Model of `say_as_machine`: a `Say` element in the configured machine
voice. -/
def say_as_machine (cfg : IVMConfig) (loop : Option Nat) (children : List TwiMLElem) :
    Except TemplateError SayNode :=
  say cfg.vars cfg.machine_voice loop children

/-- Model of `say_as_human`: a `Say` element in the configured human voice. -/
def say_as_human (cfg : IVMConfig) (loop : Option Nat) (children : List TwiMLElem) :
    Except TemplateError SayNode :=
  say cfg.vars cfg.human_voice loop children

/-- Model of `url_for("voice_message.handle_menu_callback", _external=...)`:
the path, prefixed with the configured base URL when an externally reachable
address is requested. -/
def menu_callback_url (base_url : String) (external : Bool) : String :=
  if external then base_url ++ "/menu-callback" else "/menu-callback"

/-- Model of `DynamicMessages.intro`. -/
def DynamicMessages.intro (cfg : IVMConfig) : Except TemplateError SayNode :=
  say_as_machine cfg none
    [TwiMLElem.str "Hello, this is a voice message from $from_name about $subject."]

/-- Model of `DynamicMessages.parting`.  Note the source speaks it with
`say_as_machine`, i.e. in the machine voice. -/
def DynamicMessages.parting (cfg : IVMConfig) : Except TemplateError SayNode :=
  say_as_machine cfg none
    [TwiMLElem.str "Thank you. Your reply will be delivered to $from_name. I hope you have a nice day."]

/-- Model of `DynamicMessages.main`. -/
def DynamicMessages.main (cfg : IVMConfig) : Except TemplateError SayNode :=
  say_as_human cfg none [TwiMLElem.str "$main_message"]

/-- Model of `DynamicMessages.email_address`: the email is rendered first and
attached through a spell-out `say-as` tag. -/
def DynamicMessages.email_address (cfg : IVMConfig) : Except TemplateError SayNode := do
  let email ← render_template cfg.vars "$email"
  say_as_human cfg none
    [TwiMLElem.str "My email address is,",
     TwiMLElem.tag (SayChild.sayAs email "spell-out")]

/-- Tag identifying one of the zero-argument message producers of
`DynamicMessages`; the source stores them as first-class functions. -/
inductive MessageRef where
  | intro
  | parting
  | main
  | email_address
deriving DecidableEq

/-- Interpret a `MessageRef`: call the corresponding `DynamicMessages`
producer. -/
def call_message (cfg : IVMConfig) : MessageRef → Except TemplateError SayNode
  | MessageRef.intro => DynamicMessages.intro cfg
  | MessageRef.parting => DynamicMessages.parting cfg
  | MessageRef.main => DynamicMessages.main cfg
  | MessageRef.email_address => DynamicMessages.email_address cfg

/-- Tag identifying one of the callback actions bound into menu entries and
handlers; the source stores them as first-class functions
(`CallbackAction = Callable[[VoiceResponse], CallbackSideEffect]`). -/
inductive CallbackAction where
  | say_message (message : MessageRef)
  | say_message_and_hangup (message : MessageRef)
  | prompt_voice_reply
  | return_to_menu
deriving DecidableEq

/-- A choice in the interactive menu (`MenuItem` in `src/app.py`). -/
structure MenuItem where
  prompt : String
  callback_action : CallbackAction
deriving DecidableEq

/-- Model of `CallbackActions.say_message`: append the produced message and a
one second pause, then ask to return to the menu.  The zero-argument message
thunk is passed as its (effect-free) result. -/
def CallbackActions.say_message (message : Except TemplateError SayNode)
    (response : VoiceResponse) : Except TemplateError (VoiceResponse × CallbackSideEffect) := do
  let s ← message
  .ok (response ++ [Node.say s, Node.pause 1], CallbackSideEffect.RETURN_TO_MENU)

/-- Model of `CallbackActions.say_message_and_hangup`: append the produced
message and a one second pause, then ask to hang up. -/
def CallbackActions.say_message_and_hangup (message : Except TemplateError SayNode)
    (response : VoiceResponse) : Except TemplateError (VoiceResponse × CallbackSideEffect) := do
  let s ← message
  .ok (response ++ [Node.say s, Node.pause 1], CallbackSideEffect.HANGUP)

/-- Model of `CallbackActions.prompt_voice_reply`: announce the recording,
append a `Record` verb pointing at the voice-reply and transcription
callbacks, and ask for no further action. -/
def CallbackActions.prompt_voice_reply (cfg : IVMConfig) (response : VoiceResponse) :
    Except TemplateError (VoiceResponse × CallbackSideEffect) := do
  let s ← say_as_machine cfg none
    [TwiMLElem.str "Please leave a reply after you hear a beep. Press the pound sign to finish recording."]
  .ok (response ++
        [Node.say s,
         Node.record "/voice-reply-callback" true "POST" 120 "/transcribe-callback"],
       CallbackSideEffect.NOOP)

/-- Model of `CallbackActions.return_to_menu` (and of the inline fallback
lambda in `handle_menu_callback`, which behaves identically): leave the
response untouched and ask to return to the menu. -/
def CallbackActions.return_to_menu (response : VoiceResponse) :
    Except TemplateError (VoiceResponse × CallbackSideEffect) :=
  .ok (response, CallbackSideEffect.RETURN_TO_MENU)

/-- Interpret a `CallbackAction` tag as the corresponding function of
`CallbackActions` (with the message thunks of the menu entries already
partially applied, as `functools.partial` does in the source). -/
def run_action (cfg : IVMConfig) : CallbackAction → VoiceResponse → Except TemplateError (VoiceResponse × CallbackSideEffect)
  | CallbackAction.say_message m => CallbackActions.say_message (call_message cfg m)
  | CallbackAction.say_message_and_hangup m => CallbackActions.say_message_and_hangup (call_message cfg m)
  | CallbackAction.prompt_voice_reply => CallbackActions.prompt_voice_reply cfg
  | CallbackAction.return_to_menu => CallbackActions.return_to_menu

/-- The option lines of the menu announcement, one per menu entry, built by
the `enumerate` loop in `CompositeActions.say_menu`; `index` is the position
of the first remaining entry. -/
def menu_option_lines (index : Nat) : List (String × MenuItem) → List String
  | [] => []
  | (digits, item) :: rest =>
      ((if index = 0 then "Please press" else "Press") ++ " " ++ digits ++ " " ++ item.prompt ++ ". ")
        :: menu_option_lines (index + 1) rest

/-- All strings spoken inside the gather of the menu announcement: the option
lines followed by the three fixed trailing sentences. -/
def menu_options (menu : List (String × MenuItem)) : List String :=
  menu_option_lines 0 menu ++
    ["Press any other key to repeat the options. ",
     "Or, please feel free to hang up now. ",
     "I will wait for 2 minutes before ending the call."]

/-- Model of `CompositeActions.say_menu`: append a one-keypress `Gather`
pointing at the menu callback (externally addressed or not) with a two minute
timeout, speaking the options in the machine voice with `loop=1`; then append
the closing machine-voice remark. -/
def CompositeActions.say_menu (cfg : IVMConfig) (menu : List (String × MenuItem))
    (external : Bool) (response : VoiceResponse) : Except TemplateError VoiceResponse := do
  let optionsSay ← say_as_machine cfg (some 1) ((menu_options menu).map TwiMLElem.str)
  let closing ← say_as_machine cfg none [TwiMLElem.str "Okay, thank you very much!"]
  .ok (response ++
    [Node.gather 1 (menu_callback_url cfg.base_url external) "POST" 120 [Node.say optionsSay],
     Node.say closing])

/-- The interactive menu of `src/app.py`: keys "1", "2", "3" bound to
replaying the main message, spelling the email address, and recording a
reply. -/
def interactive_menu : List (String × MenuItem) :=
  [("1", ⟨"to play the message again", CallbackAction.say_message MessageRef.main⟩),
   ("2", ⟨"for the sender's email address", CallbackAction.say_message MessageRef.email_address⟩),
   ("3", ⟨"to record a voice message to be sent back", CallbackAction.prompt_voice_reply⟩)]

/-- Model of `run_callback_action`: invoke the action, then perform the side
effect it requests — re-announce the menu (internal callback form), hang up,
or nothing. -/
def run_callback_action (cfg : IVMConfig) (action : CallbackAction) (response : VoiceResponse) :
    Except TemplateError VoiceResponse := do
  let (r, side_effect) ← run_action cfg action response
  match side_effect with
  | CallbackSideEffect.RETURN_TO_MENU => CompositeActions.say_menu cfg interactive_menu false r
  | CallbackSideEffect.HANGUP => .ok (r ++ [Node.hangup])
  | CallbackSideEffect.NOOP => .ok r

/-- Model of the `/menu-callback` handler: read the `Digits` form field
(Flask raises a 400 `BadRequestKeyError` when it is absent), look the
keypress up in the menu, and run the bound action — or the
return-to-the-menu fallback when the keypress is unmapped. -/
def handle_menu_callback (cfg : IVMConfig) (form : List (String × String)) :
    Except HandlerError VoiceResponse :=
  match List.lookup "Digits" form with
  | none => .error (HandlerError.missingFormKey "Digits")
  | some digits =>
      Except.mapError HandlerError.template
        (run_callback_action cfg
          (match List.lookup digits interactive_menu with
           | some item => item.callback_action
           | none => CallbackAction.return_to_menu)
          [])

/-- Model of the `/voice-reply-callback` handler: say the parting message and
hang up. -/
def handle_voice_reply_callback (cfg : IVMConfig) : Except TemplateError VoiceResponse :=
  run_callback_action cfg (CallbackAction.say_message_and_hangup MessageRef.parting) []

/-- Model of the `/transcribe-callback` handler: whatever the payload, do
nothing and return an empty body (Flask turns `return ""` into an empty
HTTP 200 response). -/
def handle_transcribe_callback {α : Type} (_body : α) : Nat × String :=
  (200, "")

/-- Model of the `/calls` handler body that builds the outbound call script
(the provider client itself is external infrastructure): intro, pause, main
message, email address, pause, then the menu announcement with the
externally reachable callback address. -/
def start_call (cfg : IVMConfig) : Except TemplateError VoiceResponse := do
  let intro ← DynamicMessages.intro cfg
  let main ← DynamicMessages.main cfg
  let email ← DynamicMessages.email_address cfg
  CompositeActions.say_menu cfg interactive_menu true
    [Node.say intro, Node.pause 1, Node.say main, Node.say email, Node.pause 1]

/-- A concrete configuration, with the variable mapping used by the
repository's test suite (`src/tests.py`) and the default voices of
`IVMConfig`. -/
def test_config : IVMConfig :=
  ⟨"Polly.Matthew-Neural", "Polly.Salli-Neural",
   [("from_name", "From"), ("subject", "Apple"),
    ("main_message", "Apples are red"), ("email", "test@example.com")],
   "http://localhost:5000", "to", "from"⟩

set_option maxRecDepth 10000

/-- Whether a string contains no `$`, so that template rendering leaves it
unchanged. -/
def noDollar (s : String) : Bool := s.toList.all (fun c => !(c = '$'))

/-- A structured template: an alternation of literal text pieces and variable
references, used to state what `render_template` does to each occurrence of
a reference. -/
inductive TemplatePiece where
  | lit (s : String)
  | ref (name : String)
deriving DecidableEq

/-- The characters of one template piece; a reference is written in the
delimited form `$\x7bname\x7d` accepted by `string.Template`. -/
def flattenPieceChars : TemplatePiece → List Char
  | TemplatePiece.lit s => s.toList
  | TemplatePiece.ref n => '$' :: '\x7b' :: (n.toList ++ ['\x7d'])

/-- The characters of a structured template. -/
def flattenChars : List TemplatePiece → List Char
  | [] => []
  | p :: ps => flattenPieceChars p ++ flattenChars ps

/-- The template string denoted by a structured template. -/
def flattenTemplate (ps : List TemplatePiece) : String := String.mk (flattenChars ps)

/-- A string is a valid `string.Template` identifier: nonempty, starting with
`[_a-zA-Z]`, continuing with `[_a-zA-Z0-9]`. -/
def validIdent (s : String) : Bool :=
  match s.toList with
  | [] => false
  | c :: cs => isIdentStart c && cs.all isIdentChar

/-- A well-formed template piece: literal text holds no `$`, and a reference
name is a valid identifier. -/
def pieceOk : TemplatePiece → Bool
  | TemplatePiece.lit s => noDollar s
  | TemplatePiece.ref n => validIdent n

/-- The names referenced by a structured template, in order. -/
def refNames : List TemplatePiece → List String
  | [] => []
  | TemplatePiece.lit _ :: ps => refNames ps
  | TemplatePiece.ref n :: ps => n :: refNames ps

/-- The expected rendering of a structured template: literal pieces verbatim,
each reference replaced by exactly the mapped value of its name. -/
def substPieces (vars : List (String × String)) : List TemplatePiece → String
  | [] => ""
  | TemplatePiece.lit s :: ps => s ++ substPieces vars ps
  | TemplatePiece.ref n :: ps => (Option.getD (List.lookup n vars) "") ++ substPieces vars ps

/-- Left fold of string concatenation, the single string that
`concat_consecutive_strings` merges a list of strings into. -/
def fold_append (l : List String) : String := l.foldl (fun a b => a ++ b) ""

theorem string_mk_toList (s : String) : String.mk s.toList = s := rfl

theorem string_toList_append (a b : String) : (a ++ b).toList = a.toList ++ b.toList := rfl

theorem substChars_nil (vars : List (String × String)) : substChars vars [] = .ok [] := rfl

theorem substChars_cons (vars : List (String × String)) (c : Char) (rest : List Char) :
    substChars vars (c :: rest) =
      if c = '$' then substDollar vars rest
      else Except.map (fun t => c :: t) (substChars vars rest) := rfl

theorem substBraced_cons (vars : List (String × String)) (acc : List Char) (c : Char) (rest : List Char) :
    substBraced vars acc (c :: rest) =
      if c = '\x7d' then
        match List.lookup (String.mk acc) vars with
        | some v => Except.map (fun t => v.toList ++ t) (substChars vars rest)
        | none => .error (TemplateError.missingVariable (String.mk acc))
      else if isIdentChar c then substBraced vars (acc ++ [c]) rest
      else .error TemplateError.invalidPlaceholder := rfl

theorem except_map_map {α β γ ε : Type} (f : β → γ) (g : α → β) (x : Except ε α) :
    Except.map f (Except.map g x) = Except.map (fun a => f (g a)) x := by
  cases x <;> rfl

theorem substChars_append_noDollar (vars : List (String × String)) (l rest : List Char)
    (h : ∀ c ∈ l, ¬ c = '$') :
    substChars vars (l ++ rest) = Except.map (fun t => l ++ t) (substChars vars rest) := by
  induction l with
  | nil =>
      simp only [List.nil_append]
      cases substChars vars rest <;> rfl
  | cons c l ih =>
      have hc : ¬ c = '$' := h c (List.mem_cons_self c l)
      have hl : ∀ x ∈ l, ¬ x = '$' := fun x hx => h x (List.mem_cons_of_mem c hx)
      rw [List.cons_append, substChars_cons, if_neg hc, ih hl, except_map_map]
      rfl

theorem substBraced_ident (vars : List (String × String)) (t : List Char) :
    ∀ (acc rest : List Char), (∀ c ∈ t, isIdentChar c = true) →
    substBraced vars acc (t ++ '\x7d' :: rest) =
      (match List.lookup (String.mk (acc ++ t)) vars with
       | some v => Except.map (fun u => v.toList ++ u) (substChars vars rest)
       | none => .error (TemplateError.missingVariable (String.mk (acc ++ t)))) := by
  induction t with
  | nil =>
      intro acc rest _
      rw [List.nil_append, substBraced_cons, if_pos rfl, List.append_nil]
  | cons c t ih =>
      intro acc rest h
      have hc : isIdentChar c = true := h c (List.mem_cons_self c t)
      have hcne : ¬ c = '\x7d' := by
        intro hEq
        rw [hEq] at hc
        simp [isIdentChar, isIdentStart] at hc
      have ht : ∀ x ∈ t, isIdentChar x = true := fun x hx => h x (List.mem_cons_of_mem c hx)
      rw [List.cons_append, substBraced_cons, if_neg hcne, if_pos hc, ih (acc ++ [c]) rest ht,
        List.append_assoc]
      rfl

theorem substDollar_brace (vars : List (String × String)) (c2 : Char) (rest2 : List Char) :
    substDollar vars ('\x7b' :: c2 :: rest2) =
      if isIdentStart c2 then substBraced vars [c2] rest2
      else .error TemplateError.invalidPlaceholder := rfl

theorem substChars_ref (vars : List (String × String)) (n : String) (rest : List Char)
    (h : validIdent n = true) :
    substChars vars ('$' :: '\x7b' :: (n.toList ++ '\x7d' :: rest)) =
      (match List.lookup n vars with
       | some v => Except.map (fun u => v.toList ++ u) (substChars vars rest)
       | none => .error (TemplateError.missingVariable n)) := by
  rw [substChars_cons, if_pos rfl]
  match hn : n.toList with
  | [] => rw [validIdent, hn] at h; exact absurd h (by simp)
  | c :: cs =>
      rw [validIdent, hn] at h
      have hstart : isIdentStart c = true := (Bool.and_eq_true _ _ |>.mp h).1
      have hcs : cs.all isIdentChar = true := (Bool.and_eq_true _ _ |>.mp h).2
      have hcs2 : ∀ x ∈ cs, isIdentChar x = true := by
        intro x hx
        exact List.all_eq_true.mp hcs x hx
      rw [List.cons_append, substDollar_brace, if_pos hstart,
        substBraced_ident vars cs [c] rest hcs2]
      have hmk : String.mk ([c] ++ cs) = n := by
        rw [List.singleton_append, ← hn, string_mk_toList]
      rw [hmk]

theorem noDollar_chars (s : String) (h : noDollar s = true) : ∀ c ∈ s.toList, ¬ c = '$' := by
  intro c hc
  have := List.all_eq_true.mp h c hc
  simpa using this

theorem substChars_flatten (vars : List (String × String)) (ps : List TemplatePiece)
    (hok : ∀ p ∈ ps, pieceOk p = true) :
    ((∀ n ∈ refNames ps, (List.lookup n vars).isSome = true) →
      substChars vars (flattenChars ps) = .ok (substPieces vars ps).toList)
    ∧ ((∃ n ∈ refNames ps, List.lookup n vars = none) →
      ∃ m, List.lookup m vars = none ∧ m ∈ refNames ps ∧
        substChars vars (flattenChars ps) = .error (TemplateError.missingVariable m)) := by
  induction ps with
  | nil =>
      constructor
      · intro _
        rfl
      · rintro ⟨n, hn, _⟩
        exact absurd hn (List.not_mem_nil n)
  | cons p ps ih =>
      have hokp : pieceOk p = true := hok p (List.mem_cons_self p ps)
      have hokr : ∀ q ∈ ps, pieceOk q = true := fun q hq => hok q (List.mem_cons_of_mem p hq)
      obtain ⟨ih1, ih2⟩ := ih hokr
      cases p with
      | lit s =>
          have hnd : ∀ c ∈ s.toList, ¬ c = '$' := noDollar_chars s hokp
          have hsplit : flattenChars (TemplatePiece.lit s :: ps) = s.toList ++ flattenChars ps := rfl
          rw [hsplit]
          rw [substChars_append_noDollar vars s.toList (flattenChars ps) hnd]
          constructor
          · intro hall
            rw [ih1 hall]
            show Except.ok (s.toList ++ (substPieces vars ps).toList) = _
            rw [← string_toList_append]
            rfl
          · intro hex
            obtain ⟨m, hm1, hm2, hm3⟩ := ih2 hex
            exact ⟨m, hm1, hm2, by rw [hm3]; rfl⟩
      | ref n =>
          have hvalid : validIdent n = true := hokp
          have hsplit : flattenChars (TemplatePiece.ref n :: ps) =
              '$' :: '\x7b' :: (n.toList ++ '\x7d' :: flattenChars ps) := by
            show ('$' :: '\x7b' :: (n.toList ++ ['\x7d'])) ++ flattenChars ps = _
            rw [List.cons_append, List.cons_append, List.append_assoc, List.singleton_append]
          rw [hsplit, substChars_ref vars n (flattenChars ps) hvalid]
          cases hl : List.lookup n vars with
          | some v =>
              constructor
              · intro hall
                have hall2 : ∀ m ∈ refNames ps, (List.lookup m vars).isSome = true := by
                  intro m hm
                  exact hall m (List.mem_cons_of_mem n hm)
                rw [ih1 hall2]
                show Except.ok (v.toList ++ (substPieces vars ps).toList) = _
                have : substPieces vars (TemplatePiece.ref n :: ps) =
                    v ++ substPieces vars ps := by
                  show (Option.getD (List.lookup n vars) "") ++ substPieces vars ps = _
                  rw [hl]
                  rfl
                rw [this, string_toList_append]
              · intro hex
                obtain ⟨m, hm⟩ := hex
                rcases List.mem_cons.mp hm.1 with hmn | hmr
                · rw [hmn] at hm
                  rw [hl] at hm
                  exact absurd hm.2 (by simp)
                · obtain ⟨m2, h1, h2, h3⟩ := ih2 ⟨m, hmr, hm.2⟩
                  exact ⟨m2, h1, List.mem_cons_of_mem n h2, by rw [h3]; rfl⟩
          | none =>
              constructor
              · intro hall
                have := hall n (List.mem_cons_self n (refNames ps))
                rw [hl] at this
                exact absurd this (by simp)
              · intro _
                exact ⟨n, hl, List.mem_cons_self n (refNames ps), rfl⟩

theorem render_template_noDollar (vars : List (String × String)) (s : String)
    (h : noDollar s = true) : render_template vars s = .ok s := by
  have h2 := substChars_append_noDollar vars s.toList [] (noDollar_chars s h)
  rw [List.append_nil] at h2
  rw [render_template, h2, substChars_nil]
  show Except.ok (String.mk (s.toList ++ [])) = Except.ok s
  rw [List.append_nil, string_mk_toList]

theorem foldl_reducer_str (l : List String) :
    ∀ (acc : List TwiMLElem) (s : String),
    List.foldl concat_reducer (acc ++ [TwiMLElem.str s]) (l.map TwiMLElem.str) =
      acc ++ [TwiMLElem.str (l.foldl (fun a b => a ++ b) s)] := by
  induction l with
  | nil => intro acc s; rfl
  | cons t l ih =>
      intro acc s
      rw [List.map_cons, List.foldl_cons]
      have hred : concat_reducer (acc ++ [TwiMLElem.str s]) (TwiMLElem.str t) =
          acc ++ [TwiMLElem.str (s ++ t)] := by
        simp only [concat_reducer, List.getLast?_concat, List.dropLast_concat]
      rw [hred, ih acc (s ++ t), List.foldl_cons]

theorem concat_strings_fold (l : List String) (hne : l ≠ []) :
    concat_consecutive_strings (l.map TwiMLElem.str) = [TwiMLElem.str (fold_append l)] := by
  match l, hne with
  | s :: rest, _ =>
      rw [concat_consecutive_strings, List.map_cons, List.foldl_cons]
      have h0 : concat_reducer [] (TwiMLElem.str s) = [TwiMLElem.str s] := rfl
      rw [h0]
      have := foldl_reducer_str rest [] s
      rw [List.nil_append] at this
      rw [this, List.nil_append]
      rfl

theorem renderElems_cons_str (vars : List (String × String)) (s : String) (rest : List TwiMLElem) :
    renderElems vars (TwiMLElem.str s :: rest) =
      (render_template vars s) >>= fun r =>
        (renderElems vars rest) >>= fun t => .ok (SayChild.text r :: t) := rfl

theorem say_single (vars : List (String × String)) (voice : String) (loop : Option Nat)
    (s r : String) (h : render_template vars s = .ok r) :
    say vars voice loop [TwiMLElem.str s] = .ok ⟨voice, loop, [SayChild.text r]⟩ := by
  show (renderElems vars (concat_consecutive_strings [TwiMLElem.str s])) >>=
      (fun cs => Except.ok (SayNode.mk voice loop cs)) = _
  have h1 : concat_consecutive_strings [TwiMLElem.str s] = [TwiMLElem.str s] := rfl
  rw [h1, renderElems_cons_str, h]
  rfl

theorem say_str_tag (vars : List (String × String)) (voice : String) (loop : Option Nat)
    (s r : String) (c : SayChild) (h : render_template vars s = .ok r) :
    say vars voice loop [TwiMLElem.str s, TwiMLElem.tag c] =
      .ok ⟨voice, loop, [SayChild.text r, c]⟩ := by
  show (renderElems vars (concat_consecutive_strings [TwiMLElem.str s, TwiMLElem.tag c])) >>=
      (fun cs => Except.ok (SayNode.mk voice loop cs)) = _
  have h1 : concat_consecutive_strings [TwiMLElem.str s, TwiMLElem.tag c] =
      [TwiMLElem.str s, TwiMLElem.tag c] := rfl
  rw [h1, renderElems_cons_str, h]
  rfl

theorem say_map_str (vars : List (String × String)) (voice : String) (loop : Option Nat)
    (l : List String) (hne : l ≠ []) (r : String)
    (h : render_template vars (fold_append l) = .ok r) :
    say vars voice loop (l.map TwiMLElem.str) = .ok ⟨voice, loop, [SayChild.text r]⟩ := by
  show (renderElems vars (concat_consecutive_strings (l.map TwiMLElem.str))) >>=
      (fun cs => Except.ok (SayNode.mk voice loop cs)) = _
  rw [concat_strings_fold l hne, renderElems_cons_str, h]
  rfl

theorem noDollar_append (a b : String) : noDollar (a ++ b) = (noDollar a && noDollar b) := by
  rw [noDollar, noDollar, noDollar, string_toList_append, List.all_append]

theorem noDollar_foldl (l : List String) :
    ∀ (s : String), noDollar s = true → (∀ x ∈ l, noDollar x = true) →
    noDollar (l.foldl (fun a b => a ++ b) s) = true := by
  induction l with
  | nil =>
      intro s hs _
      exact hs
  | cons t l ih =>
      intro s hs h
      rw [List.foldl_cons]
      refine ih (s ++ t) ?_ (fun x hx => h x (List.mem_cons_of_mem t hx))
      rw [noDollar_append, hs, h t (List.mem_cons_self t l)]
      rfl

theorem noDollar_fold_append (l : List String) (h : ∀ x ∈ l, noDollar x = true) :
    noDollar (fold_append l) = true :=
  noDollar_foldl l "" rfl h

theorem menu_options_ne_nil (menu : List (String × MenuItem)) : menu_options menu ≠ [] := by
  intro hEq
  have := congrArg List.length hEq
  rw [menu_options, List.length_append] at this
  simp at this

theorem say_menu_eq (cfg : IVMConfig) (menu : List (String × MenuItem)) (external : Bool)
    (response : VoiceResponse) (h : ∀ s ∈ menu_options menu, noDollar s = true) :
    CompositeActions.say_menu cfg menu external response =
      .ok (response ++
        [Node.gather 1 (menu_callback_url cfg.base_url external) "POST" 120
          [Node.say ⟨cfg.machine_voice, some 1,
            [SayChild.text (fold_append (menu_options menu))]⟩],
         Node.say ⟨cfg.machine_voice, none, [SayChild.text "Okay, thank you very much!"]⟩]) := by
  have hfold := render_template_noDollar cfg.vars (fold_append (menu_options menu))
    (noDollar_fold_append _ h)
  have h1 : say_as_machine cfg (some 1) ((menu_options menu).map TwiMLElem.str) =
      .ok ⟨cfg.machine_voice, some 1, [SayChild.text (fold_append (menu_options menu))]⟩ :=
    say_map_str cfg.vars cfg.machine_voice (some 1) (menu_options menu)
      (menu_options_ne_nil menu) _ hfold
  have h2 : say_as_machine cfg none [TwiMLElem.str "Okay, thank you very much!"] =
      .ok ⟨cfg.machine_voice, none, [SayChild.text "Okay, thank you very much!"]⟩ :=
    say_single cfg.vars cfg.machine_voice none _ _
      (render_template_noDollar cfg.vars _ (by decide))
  show (say_as_machine cfg (some 1) ((menu_options menu).map TwiMLElem.str)) >>=
      (fun optionsSay => (say_as_machine cfg none [TwiMLElem.str "Okay, thank you very much!"]) >>=
        (fun closing => Except.ok (response ++
          [Node.gather 1 (menu_callback_url cfg.base_url external) "POST" 120 [Node.say optionsSay],
           Node.say closing]))) = _
  rw [h1, h2]
  rfl

theorem except_bind_ok {ε α β : Type} (a : α) (f : α → Except ε β) :
    (Except.ok a : Except ε α) >>= f = f a := rfl

theorem except_bind_error {ε α β : Type} (e : ε) (f : α → Except ε β) :
    (Except.error e : Except ε α) >>= f = Except.error e := rfl

theorem run_callback_action_eq (cfg : IVMConfig) (action : CallbackAction)
    (response r : VoiceResponse) (eff : CallbackSideEffect)
    (h : run_action cfg action response = .ok (r, eff)) :
    run_callback_action cfg action response =
      (match eff with
       | CallbackSideEffect.RETURN_TO_MENU => CompositeActions.say_menu cfg interactive_menu false r
       | CallbackSideEffect.HANGUP => .ok (r ++ [Node.hangup])
       | CallbackSideEffect.NOOP => .ok r) := by
  unfold run_callback_action
  conv_lhs => rw [h]
  cases eff <;> rfl

theorem menu_option_lines_cons (k : Nat) (d : String) (it : MenuItem) (rest : List (String × MenuItem)) :
    menu_option_lines k ((d, it) :: rest) =
      ((if k = 0 then "Please press" else "Press") ++ " " ++ d ++ " " ++ it.prompt ++ ". ")
        :: menu_option_lines (k + 1) rest := rfl

theorem menu_option_lines_length (menu : List (String × MenuItem)) :
    ∀ k, (menu_option_lines k menu).length = menu.length := by
  induction menu with
  | nil =>
      intro k
      rfl
  | cons p menu ih =>
      intro k
      obtain ⟨d, it⟩ := p
      rw [menu_option_lines_cons, List.length_cons, ih (k + 1), List.length_cons]

theorem menu_option_lines_getElem (menu : List (String × MenuItem)) :
    ∀ (k i : Nat), (menu_option_lines k menu)[i]? =
      (menu[i]?).map (fun p =>
        (if k + i = 0 then "Please press" else "Press") ++ " " ++ p.1 ++ " " ++ p.2.prompt ++ ". ") := by
  induction menu with
  | nil =>
      intro k i
      simp [menu_option_lines]
  | cons p menu ih =>
      intro k i
      obtain ⟨d, it⟩ := p
      rw [menu_option_lines_cons]
      cases i with
      | zero => simp
      | succ i =>
          rw [List.getElem?_cons_succ, List.getElem?_cons_succ, ih (k + 1) i]
          have hk : k + 1 + i = k + (i + 1) := by omega
          rw [hk]

/-- Claim C1: for every POST to `/menu-callback` carrying a `Digits` form
value, a mapped keypress runs exactly that entry's bound action; any other
value (empty, multi-character, or unmapped) runs the fallback, which yields
the return-to-menu directive, so the request is answered with the re-announced
menu and is not an error. -/
theorem C1_menu_callback_dispatch (cfg : IVMConfig) (digits : String) :
    (∀ item : MenuItem, List.lookup digits interactive_menu = some item →
      handle_menu_callback cfg [("Digits", digits)] =
        Except.mapError HandlerError.template (run_callback_action cfg item.callback_action []))
    ∧ (List.lookup digits interactive_menu = none →
      handle_menu_callback cfg [("Digits", digits)] =
        .ok [Node.gather 1 "/menu-callback" "POST" 120
              [Node.say ⟨cfg.machine_voice, some 1,
                [SayChild.text "Please press 1 to play the message again. Press 2 for the sender's email address. Press 3 to record a voice message to be sent back. Press any other key to repeat the options. Or, please feel free to hang up now. I will wait for 2 minutes before ending the call."]⟩],
             Node.say ⟨cfg.machine_voice, none, [SayChild.text "Okay, thank you very much!"]⟩])
    ∧ run_action cfg CallbackAction.return_to_menu [] = .ok ([], CallbackSideEffect.RETURN_TO_MENU) := by
  refine ⟨?_, ?_, rfl⟩
  · intro item h
    show Except.mapError HandlerError.template
      (run_callback_action cfg
        (match List.lookup digits interactive_menu with
         | some item => item.callback_action
         | none => CallbackAction.return_to_menu) []) = _
    rw [h]
  · intro h
    show Except.mapError HandlerError.template
      (run_callback_action cfg
        (match List.lookup digits interactive_menu with
         | some item => item.callback_action
         | none => CallbackAction.return_to_menu) []) = _
    rw [h]
    have hr : run_callback_action cfg CallbackAction.return_to_menu [] =
        CompositeActions.say_menu cfg interactive_menu false [] :=
      run_callback_action_eq cfg CallbackAction.return_to_menu [] [] CallbackSideEffect.RETURN_TO_MENU rfl
    rw [hr, say_menu_eq cfg interactive_menu false [] (by decide)]
    rfl

/-- Witness for C1 at the unmapped keypress "9" and a concrete
configuration. -/
theorem C1_menu_callback_dispatch_witness :
    handle_menu_callback test_config [("Digits", "9")] =
      .ok [Node.gather 1 "/menu-callback" "POST" 120
            [Node.say ⟨test_config.machine_voice, some 1,
              [SayChild.text "Please press 1 to play the message again. Press 2 for the sender's email address. Press 3 to record a voice message to be sent back. Press any other key to repeat the options. Or, please feel free to hang up now. I will wait for 2 minutes before ending the call."]⟩],
           Node.say ⟨test_config.machine_voice, none, [SayChild.text "Okay, thank you very much!"]⟩] :=
  (C1_menu_callback_dispatch test_config "9").2.1 rfl

/-- Claim C2: for every menu mapping with N entries, the announcement lists
exactly N options in iteration order (the first "Please press …", the rest
"Press …"), followed by the three fixed trailing sentences about
unrecognized presses, hanging up and the 2-minute wait, all spoken inside
the gather; after the gather a machine-voice closing remark
"Okay, thank you very much!" is unconditionally appended.  The hypothesis
asks that the announced strings contain no template placeholder, so that
rendering leaves them intact. -/
theorem C2_say_menu_announcement (cfg : IVMConfig) (menu : List (String × MenuItem))
    (external : Bool) (response : VoiceResponse)
    (h : ∀ s ∈ menu_options menu, noDollar s = true) :
    CompositeActions.say_menu cfg menu external response =
      .ok (response ++
        [Node.gather 1 (menu_callback_url cfg.base_url external) "POST" 120
          [Node.say ⟨cfg.machine_voice, some 1,
            [SayChild.text (fold_append (menu_options menu))]⟩],
         Node.say ⟨cfg.machine_voice, none, [SayChild.text "Okay, thank you very much!"]⟩])
    ∧ (menu_options menu).length = menu.length + 3
    ∧ (∀ i, ∀ hi : i < menu.length, (menu_options menu)[i]? =
        some ((if i = 0 then "Please press" else "Press") ++ " " ++
          (menu.get ⟨i, hi⟩).1 ++ " " ++ (menu.get ⟨i, hi⟩).2.prompt ++ ". "))
    ∧ (menu_options menu).drop menu.length =
        ["Press any other key to repeat the options. ",
         "Or, please feel free to hang up now. ",
         "I will wait for 2 minutes before ending the call."] := by
  refine ⟨say_menu_eq cfg menu external response h, ?_, ?_, ?_⟩
  · rw [menu_options, List.length_append, menu_option_lines_length menu 0]
    rfl
  · intro i hi
    rw [menu_options,
      List.getElem?_append_left (by rw [menu_option_lines_length menu 0]; exact hi),
      menu_option_lines_getElem menu 0 i, List.getElem?_eq_getElem hi]
    simp
  · rw [menu_options, List.drop_left' (menu_option_lines_length menu 0)]

/-- Witness for C2 at the application's concrete three-entry menu. -/
theorem C2_say_menu_announcement_witness :
    (menu_options interactive_menu).length = interactive_menu.length + 3
    ∧ (menu_options interactive_menu)[0]? = some "Please press 1 to play the message again. "
    ∧ (menu_options interactive_menu)[1]? = some "Press 2 for the sender's email address. " := by
  have h := C2_say_menu_announcement test_config interactive_menu false [] (by decide)
  exact ⟨h.2.1, h.2.2.1 0 (by decide), h.2.2.1 1 (by decide)⟩

/-- Counterexample to claim C3 as stated: at a concrete configuration the
`/voice-reply-callback` response contains the parting prompt in the MACHINE
voice (the source builds it with `say_as_machine`), and the machine voice
differs from the configured human voice, so the response contains no
human-voice speech at all. -/
theorem C3_voice_reply_counterexample :
    handle_voice_reply_callback test_config =
      .ok [Node.say ⟨test_config.machine_voice, none,
            [SayChild.text "Thank you. Your reply will be delivered to From. I hope you have a nice day."]⟩,
           Node.pause 1, Node.hangup]
    ∧ test_config.machine_voice ≠ test_config.human_voice := by
  exact ⟨rfl, by decide⟩

/-- Claim C3 as amended: for every POST to `/voice-reply-callback`, the
returned markup is exactly the parting prompt rendered in the machine voice
profile, followed by a 1-second pause, followed by a hang-up instruction —
in particular it contains no gather, hence no menu re-announcement. -/
theorem C3_voice_reply_markup (cfg : IVMConfig) (s : String)
    (h : render_template cfg.vars
      "Thank you. Your reply will be delivered to $from_name. I hope you have a nice day." = .ok s) :
    handle_voice_reply_callback cfg =
      .ok [Node.say ⟨cfg.machine_voice, none, [SayChild.text s]⟩, Node.pause 1, Node.hangup] := by
  have hp : DynamicMessages.parting cfg = .ok ⟨cfg.machine_voice, none, [SayChild.text s]⟩ :=
    say_single cfg.vars cfg.machine_voice none _ s h
  have ha : run_action cfg (CallbackAction.say_message_and_hangup MessageRef.parting) [] =
      .ok ([Node.say ⟨cfg.machine_voice, none, [SayChild.text s]⟩, Node.pause 1],
        CallbackSideEffect.HANGUP) := by
    show (call_message cfg MessageRef.parting) >>= (fun sn =>
      Except.ok (([] : VoiceResponse) ++ [Node.say sn, Node.pause 1], CallbackSideEffect.HANGUP)) = _
    rw [show call_message cfg MessageRef.parting = DynamicMessages.parting cfg from rfl, hp,
      except_bind_ok]
    rfl
  show run_callback_action cfg (CallbackAction.say_message_and_hangup MessageRef.parting) [] = _
  rw [run_callback_action_eq cfg _ [] _ _ ha]
  rfl

/-- Witness for the amended C3 at a concrete configuration. -/
theorem C3_voice_reply_markup_witness :
    handle_voice_reply_callback test_config =
      .ok [Node.say ⟨test_config.machine_voice, none,
            [SayChild.text "Thank you. Your reply will be delivered to From. I hope you have a nice day."]⟩,
           Node.pause 1, Node.hangup] :=
  C3_voice_reply_markup test_config
    "Thank you. Your reply will be delivered to From. I hope you have a nice day." rfl

/-- Claim C4 (merge law): for all literal text strings and any fixed variable
mapping, rendering the two-element piece list `[a, b]` through `say` produces
the same speech instruction as rendering `[a ++ b]`: consecutive literal
pieces are concatenated before attachment, so no content is dropped. -/
theorem C4_say_merge_law (vars : List (String × String)) (voice : String)
    (loop : Option Nat) (a b : String) :
    say vars voice loop [TwiMLElem.str a, TwiMLElem.str b] =
      say vars voice loop [TwiMLElem.str (a ++ b)] := rfl

/-- Claim C5: rendering a well-formed structured template (literal pieces
and variable references) against a variable mapping substitutes each
occurrence of a reference exactly once with its mapped value when every
referenced name is present, and fails with a missing-variable error (not
with literal text or an empty substitute) when some referenced name is
absent. -/
theorem C5_render_template_substitution (vars : List (String × String))
    (ps : List TemplatePiece) (hok : ∀ p ∈ ps, pieceOk p = true) :
    ((∀ n ∈ refNames ps, (List.lookup n vars).isSome = true) →
      render_template vars (flattenTemplate ps) = .ok (substPieces vars ps))
    ∧ ((∃ n ∈ refNames ps, List.lookup n vars = none) →
      ∃ m, List.lookup m vars = none ∧ m ∈ refNames ps ∧
        render_template vars (flattenTemplate ps) = .error (TemplateError.missingVariable m)) := by
  obtain ⟨h1, h2⟩ := substChars_flatten vars ps hok
  have hTL : (flattenTemplate ps).toList = flattenChars ps := rfl
  constructor
  · intro hall
    rw [render_template, hTL, h1 hall]
    show Except.ok (String.mk (substPieces vars ps).toList) = _
    rw [string_mk_toList]
  · intro hex
    obtain ⟨m, hm1, hm2, hm3⟩ := h2 hex
    refine ⟨m, hm1, hm2, ?_⟩
    rw [render_template, hTL, hm3]
    rfl

/-- Witness for C5: a concrete template with one reference renders with the
reference substituted, and the same template against an empty mapping fails
with the missing-variable error. -/
theorem C5_render_template_substitution_witness :
    render_template [("name", "World")]
      (flattenTemplate [TemplatePiece.lit "Hello ", TemplatePiece.ref "name", TemplatePiece.lit "!"]) =
      .ok "Hello World!" := by
  have h := (C5_render_template_substitution [("name", "World")]
    [TemplatePiece.lit "Hello ", TemplatePiece.ref "name", TemplatePiece.lit "!"]
    (by decide)).1 (by decide)
  rw [h]
  rfl

/-- Claim C6: the dispatcher `run_callback_action` invokes the given action
and then applies the directive it returns: return-to-menu appends a
re-announcement of the menu in the internal (non-external) callback form,
hang-up appends a hang-up instruction, and no-op appends nothing further. -/
theorem C6_run_callback_action_directives (cfg : IVMConfig) (action : CallbackAction)
    (response r : VoiceResponse) (eff : CallbackSideEffect)
    (h : run_action cfg action response = .ok (r, eff)) :
    run_callback_action cfg action response =
      (match eff with
       | CallbackSideEffect.RETURN_TO_MENU => CompositeActions.say_menu cfg interactive_menu false r
       | CallbackSideEffect.HANGUP => .ok (r ++ [Node.hangup])
       | CallbackSideEffect.NOOP => .ok r) :=
  run_callback_action_eq cfg action response r eff h

/-- Witness for C6 at the trivial return-to-menu action. -/
theorem C6_run_callback_action_directives_witness :
    run_callback_action test_config CallbackAction.return_to_menu [] =
      CompositeActions.say_menu test_config interactive_menu false [] :=
  C6_run_callback_action_directives test_config CallbackAction.return_to_menu [] []
    CallbackSideEffect.RETURN_TO_MENU rfl

/-- Claim C7: for every zero-argument prompt producer and response builder,
`say_message` and `say_message_and_hangup` perform identical builder
mutations — append the produced prompt, then a one-second pause — and differ
only in the returned directive: return-to-menu versus hang-up. -/
theorem C7_say_message_variants (message : Except TemplateError SayNode)
    (response : VoiceResponse) :
    CallbackActions.say_message message response =
      Except.map (fun p => (p.1, CallbackSideEffect.RETURN_TO_MENU))
        (CallbackActions.say_message_and_hangup message response)
    ∧ (∀ s, message = .ok s →
        CallbackActions.say_message message response =
          .ok (response ++ [Node.say s, Node.pause 1], CallbackSideEffect.RETURN_TO_MENU)
        ∧ CallbackActions.say_message_and_hangup message response =
          .ok (response ++ [Node.say s, Node.pause 1], CallbackSideEffect.HANGUP)) := by
  constructor
  · cases message <;> rfl
  · intro s h
    rw [h]
    exact ⟨rfl, rfl⟩

/-- Witness for C7 at a concrete message and an empty builder. -/
theorem C7_say_message_variants_witness :
    CallbackActions.say_message
        (Except.ok ⟨"Polly.Matthew-Neural", none, [SayChild.text "hi"]⟩) [] =
      .ok ([Node.say ⟨"Polly.Matthew-Neural", none, [SayChild.text "hi"]⟩, Node.pause 1],
        CallbackSideEffect.RETURN_TO_MENU) :=
  ((C7_say_message_variants
    (Except.ok ⟨"Polly.Matthew-Neural", none, [SayChild.text "hi"]⟩) []).2 _ rfl).1

/-- Claim C9: the `/transcribe-callback` handler succeeds for every payload of
every shape, returning HTTP 200 with an empty body: it produces no markup
content and touches no state. -/
theorem C9_transcribe_callback_trivial : ∀ (α : Type) (body : α),
    handle_transcribe_callback body = (200, "") :=
  fun _ _ => rfl

/-- Claim C10: a POST to `/menu-callback` whose form lacks the `Digits` field
entirely fails with the missing-key (HTTP 400) error instead of invoking the
fallback action. -/
theorem C10_missing_digits_field (cfg : IVMConfig) (form : List (String × String))
    (h : List.lookup "Digits" form = none) :
    handle_menu_callback cfg form = .error (HandlerError.missingFormKey "Digits") := by
  unfold handle_menu_callback
  rw [h]

/-- Witness for C10 at an empty form. -/
theorem C10_missing_digits_field_witness :
    handle_menu_callback test_config [] = .error (HandlerError.missingFormKey "Digits") :=
  C10_missing_digits_field test_config [] rfl

/-- Claim C8: the markup produced for a successfully placed outbound call
contains, in order: the intro prompt in the machine voice, a pause, the main
message in the human voice, the email-address prompt in the human voice with
the email attached through the spell-out tag, a pause, and the menu
announcement whose gather callback uses the externally reachable address
form. -/
theorem C8_start_call_structure (cfg : IVMConfig) (i m e : String)
    (h1 : render_template cfg.vars
      "Hello, this is a voice message from $from_name about $subject." = .ok i)
    (h2 : render_template cfg.vars "$main_message" = .ok m)
    (h3 : render_template cfg.vars "$email" = .ok e) :
    start_call cfg = .ok
      [Node.say ⟨cfg.machine_voice, none, [SayChild.text i]⟩,
       Node.pause 1,
       Node.say ⟨cfg.human_voice, none, [SayChild.text m]⟩,
       Node.say ⟨cfg.human_voice, none,
         [SayChild.text "My email address is,", SayChild.sayAs e "spell-out"]⟩,
       Node.pause 1,
       Node.gather 1 (menu_callback_url cfg.base_url true) "POST" 120
         [Node.say ⟨cfg.machine_voice, some 1,
           [SayChild.text (fold_append (menu_options interactive_menu))]⟩],
       Node.say ⟨cfg.machine_voice, none, [SayChild.text "Okay, thank you very much!"]⟩] := by
  have hintro : DynamicMessages.intro cfg = .ok ⟨cfg.machine_voice, none, [SayChild.text i]⟩ :=
    say_single cfg.vars cfg.machine_voice none _ i h1
  have hmain : DynamicMessages.main cfg = .ok ⟨cfg.human_voice, none, [SayChild.text m]⟩ :=
    say_single cfg.vars cfg.human_voice none _ m h2
  have hemail : DynamicMessages.email_address cfg =
      .ok ⟨cfg.human_voice, none,
        [SayChild.text "My email address is,", SayChild.sayAs e "spell-out"]⟩ := by
    show (render_template cfg.vars "$email") >>= (fun email =>
      say_as_human cfg none
        [TwiMLElem.str "My email address is,",
         TwiMLElem.tag (SayChild.sayAs email "spell-out")]) = _
    rw [h3, except_bind_ok]
    exact say_str_tag cfg.vars cfg.human_voice none _ _ _
      (render_template_noDollar cfg.vars _ (by decide))
  show (DynamicMessages.intro cfg) >>= (fun intro =>
    (DynamicMessages.main cfg) >>= (fun main =>
      (DynamicMessages.email_address cfg) >>= (fun email =>
        CompositeActions.say_menu cfg interactive_menu true
          [Node.say intro, Node.pause 1, Node.say main, Node.say email, Node.pause 1]))) = _
  rw [hintro, except_bind_ok, hmain, except_bind_ok, hemail, except_bind_ok,
    say_menu_eq cfg interactive_menu true _ (by decide)]
  rfl

/-- Witness for C8 at a concrete configuration, with every prompt rendered. -/
theorem C8_start_call_structure_witness :
    start_call test_config = .ok
      [Node.say ⟨"Polly.Matthew-Neural", none,
        [SayChild.text "Hello, this is a voice message from From about Apple."]⟩,
       Node.pause 1,
       Node.say ⟨"Polly.Salli-Neural", none, [SayChild.text "Apples are red"]⟩,
       Node.say ⟨"Polly.Salli-Neural", none,
         [SayChild.text "My email address is,", SayChild.sayAs "test@example.com" "spell-out"]⟩,
       Node.pause 1,
       Node.gather 1 "http://localhost:5000/menu-callback" "POST" 120
         [Node.say ⟨"Polly.Matthew-Neural", some 1,
           [SayChild.text "Please press 1 to play the message again. Press 2 for the sender's email address. Press 3 to record a voice message to be sent back. Press any other key to repeat the options. Or, please feel free to hang up now. I will wait for 2 minutes before ending the call."]⟩],
       Node.say ⟨"Polly.Matthew-Neural", none, [SayChild.text "Okay, thank you very much!"]⟩] :=
  C8_start_call_structure test_config
    "Hello, this is a voice message from From about Apple." "Apples are red" "test@example.com"
    rfl rfl rfl
